import Mathlib

/-
Shallow embedding of `smartthings_exporter.py` (michikrug/smartthings_exporter).

Modelling conventions:
- Time (`time.time()`) is modelled as `Int`.
- A device-status value (`device.status.values.get(key)`) is `Option Int`:
  `none` is Python `None` (absent/null field), `some n` a numeric reading.
- Each `SmartThingsMetric` owns one prometheus `Gauge` used with the single
  label value `device_name`; the gauge's exposition state for that label is
  the field `published` (`none` = hidden/absent series, `some n` = published).
- A Python exception is a `Bool` flag (`true` = the modelled region raised);
  state returned alongside the flag is the state at the moment of the raise,
  since Python mutations performed before the raise persist.
- `Gauge.labels(...).set(v)` calls `float(v)`, which raises `TypeError` when
  `v` is `None`; this is the only failure mode of publishing in the model.
-/

set_option autoImplicit false

namespace SmartThings

/-- State of one `SmartThingsMetric` object: its immutable identity
(`payload_key`, `device_name`, `name`), the exposition state `published` of
the `Gauge` it owns (for the one label value `device_name`), and the mutable
fields `value` and `last_update_time` (both `None` at construction). -/
structure SmartThingsMetric where
  payload_key : String
  device_name : String
  name : String
  published : Option Int
  value : Option Int
  last_update_time : Option Int
deriving DecidableEq

/-- `SmartThingsMetric.__init__`: stores the key and device name, derives
`name = "smartthings_" + payload_key`, registers a fresh (hidden) gauge and
leaves `value` and `last_update_time` as `None`. -/
def SmartThingsMetric.init (payload_key device_name : String) : SmartThingsMetric :=
  { payload_key := payload_key
    device_name := device_name
    name := "smartthings_" ++ payload_key
    published := none
    value := none
    last_update_time := none }

/-- `SmartThingsMetric.set(value)` at time `now`. If `value` differs from
`self.value`, the gauge is set first (`self.metric.labels(...).set(value)`)
and only then are `self.value` and `self.last_update_time` assigned; when the
new value is `None` the gauge `set` raises (`float(None)`), so the handle's
fields keep their previous contents. If `value` equals `self.value` nothing
happens. Returns (new handle state, raised?). -/
def SmartThingsMetric.set (m : SmartThingsMetric) (v : Option Int) (now : Int) :
    SmartThingsMetric × Bool :=
  if m.value ≠ v then
    match v with
    | none => (m, true)
    | some n =>
        ({ m with published := some n, value := some n, last_update_time := some now }, false)
  else
    (m, false)

/-- `SmartThingsMetric.clear()` at time `now`: `self.metric.clear()` removes
every labelled series of the gauge (the series becomes absent, not zero), and
`self.last_update_time` is set to now. Never raises. -/
def SmartThingsMetric.clear (m : SmartThingsMetric) (now : Int) : SmartThingsMetric :=
  { m with published := none, last_update_time := some now }

/-- Folding `set` over a list of numeric readings (the per-cycle observations
of one field), also counting how many `set` calls published to the gauge: a
call publishes exactly when the guard `self.value != value` of the source
holds. -/
def setAllCount : SmartThingsMetric → Int → List Int → SmartThingsMetric × Nat
  | m, _, [] => (m, 0)
  | m, now, v :: vs =>
      let p := m.set (some v) now
      let q := setAllCount p.1 now vs
      (q.1, (if m.value ≠ some v then 1 else 0) + q.2)

/-- Spec-side definition (from the spec's words, for comparison with the
code): the number of values in a sequence that differ from their predecessor,
the predecessor of the first element being the handle's prior `value`. -/
def changeCount : Option Int → List Int → Nat
  | _, [] => 0
  | prev, v :: vs => (if prev ≠ some v then 1 else 0) + changeCount (some v) vs

/-- State of a `Worker`: configuration plus the registry `metrics_collector`.
The collector is a `List (Option SmartThingsMetric)` because the source
appends the result of `create_new_metric` unconditionally, and that result is
`None` when construction failed. -/
structure Worker where
  smartthings_token : String
  device_id : String
  device_name : String
  device_metrics : List String
  collecting_interval_seconds : Int
  metrics_collector : List (Option SmartThingsMetric)
  expiration_threshold : Int
  running : Bool
deriving DecidableEq

/-- `Worker.__init__`: stores the configuration, starts with an empty
collector and `running = True`. -/
def Worker.init (smartthings_token device_id device_name : String)
    (device_metrics : List String)
    (collecting_interval_seconds expiration_threshold : Int) : Worker :=
  { smartthings_token := smartthings_token
    device_id := device_id
    device_name := device_name
    device_metrics := device_metrics
    collecting_interval_seconds := collecting_interval_seconds
    metrics_collector := []
    expiration_threshold := expiration_threshold
    running := true }

/-- `Worker.stop()`: clears the running flag; nothing else. -/
def Worker.stop (w : Worker) : Worker :=
  { w with running := false }

/-- `Worker.create_new_metric(payload_key)`. Whether
`SmartThingsMetric.__init__` raises `SmartThingsMetricException` for a given
key (the exception the source catches, e.g. an invalid field key format) is
abstracted by the oracle `fails`; on failure the source logs the error and
returns `None`, otherwise the fresh handle. In the source as written nothing
ever raises `SmartThingsMetricException`, so `fun _ => false` is the faithful
instantiation of `fails`. -/
def Worker.create_new_metric (w : Worker) (fails : String → Bool)
    (payload_key : String) : Option SmartThingsMetric :=
  if fails payload_key then none
  else some (SmartThingsMetric.init payload_key w.device_name)

/-- The generator `next((metric for metric in self.metrics_collector if
metric.payload_key == payload_key), None)`: scans the collector in order and
returns the index and value of the first entry whose `payload_key` matches.
Reaching a `None` entry evaluates `None.payload_key` and raises
`AttributeError` (flag `true`); a match located before any `None` entry is
returned without touching the rest. -/
def findMetric : List (Option SmartThingsMetric) → String →
    Option (Nat × SmartThingsMetric) × Bool
  | [], _ => (none, false)
  | none :: _, _ => (none, true)
  | some m :: rest, key =>
      if m.payload_key = key then (some (0, m), false)
      else
        match findMetric rest key with
        | (some (i, m'), b) => (some (i + 1, m'), b)
        | (none, b) => (none, b)

/-- `Worker.get_metric_by_payload_key(payload_key)`: return the existing
metric for the key if found; otherwise call `create_new_metric` and append
its result to the collector — even when that result is `None` — and return
it. Result: (new worker state, index and handle of the resolved metric if
any, raised?). The raised flag is the `AttributeError` of the scan; it
propagates to the caller before any mutation. -/
def Worker.get_metric_by_payload_key (w : Worker) (fails : String → Bool)
    (payload_key : String) : Worker × Option (Nat × SmartThingsMetric) × Bool :=
  match findMetric w.metrics_collector payload_key with
  | (_, true) => (w, none, true)
  | (some im, false) => (w, some im, false)
  | (none, false) =>
      let metric := w.create_new_metric fails payload_key
      ({ w with metrics_collector := w.metrics_collector ++ [metric] },
       metric.map (fun m => (w.metrics_collector.length, m)), false)

/-- One iteration of the `for payload_key in self.device_metrics` body:
resolve the key; `if metric:` skips a `None` result; otherwise call
`metric.set(device.status.values.get(payload_key))`, which mutates the
resolved object in place (here: write back at its index). Returns (state,
raised?); a raise leaves every mutation already performed in place. -/
def Worker.process_key (w : Worker) (fails : String → Bool)
    (status : String → Option Int) (now : Int) (payload_key : String) :
    Worker × Bool :=
  match w.get_metric_by_payload_key fails payload_key with
  | (w1, _, true) => (w1, true)
  | (w1, none, false) => (w1, false)
  | (w1, some (i, m), false) =>
      let p := m.set (status payload_key) now
      ({ w1 with metrics_collector := w1.metrics_collector.set i (some p.1) }, p.2)

/-- The whole `for` loop over the configured payload keys, in configured
order; the first raise aborts the remaining keys (the exception leaves the
loop) while keeping the updates already applied. -/
def Worker.process_keys (fails : String → Bool) (status : String → Option Int)
    (now : Int) : Worker → List String → Worker × Bool
  | w, [] => (w, false)
  | w, k :: ks =>
      match w.process_key fails status now k with
      | (w1, true) => (w1, true)
      | (w1, false) => Worker.process_keys fails status now w1 ks

/-- One entry of the sweep in `Worker.clear_expired_metrics`: a `None` entry
raises `AttributeError` on `metric.last_update_time`; a metric whose
`last_update_time` is `None` raises `TypeError` on `current_time - None`;
otherwise the metric is cleared (and its clearing logged) exactly when
`current_time - last_update_time > expiration_threshold`. Result: (entry
after the step, cleared?, raised). -/
def sweepStep (expiration_threshold current_time : Int) :
    Option SmartThingsMetric → Option SmartThingsMetric × Bool × Bool
  | none => (none, false, true)
  | some m =>
      match m.last_update_time with
      | none => (some m, false, true)
      | some t =>
          if current_time - t > expiration_threshold then
            (some (m.clear current_time), true, false)
          else (some m, false, false)

/-- The `for metric in self.metrics_collector` loop of the sweep: entries are
processed in order; the first raise aborts the rest of the sweep, keeping the
clears already applied. Result: (collector after the sweep, raised?). -/
def sweepList (expiration_threshold current_time : Int) :
    List (Option SmartThingsMetric) → List (Option SmartThingsMetric) × Bool
  | [] => ([], false)
  | e :: rest =>
      match sweepStep expiration_threshold current_time e with
      | (e', _, true) => (e' :: rest, true)
      | (e', _, false) =>
          let p := sweepList expiration_threshold current_time rest
          (e' :: p.1, p.2)

/-- `Worker.clear_expired_metrics()` at `current_time`. Returns (state,
raised?); the raised flag matters because this call sits outside the `try`
of `Worker.loop`. -/
def Worker.clear_expired_metrics (w : Worker) (current_time : Int) :
    Worker × Bool :=
  let p := sweepList w.expiration_threshold current_time w.metrics_collector
  ({ w with metrics_collector := p.1 }, p.2)

/-- Outcome of `await device.status.refresh()` plus the resulting snapshot:
on success the snapshot maps each payload key to its (possibly absent)
value; on failure the refresh raised. -/
inductive PollResult where
  | ok (status : String → Option Int)
  | fail

/-- One iteration body of `Worker.loop` (one poll cycle): the `try` block
runs the refresh and the per-key updates, and any exception there is caught
and logged (`except Exception`); then `clear_expired_metrics` runs outside
the `try`. Result: (state, uncaught exception escaped the cycle?); only a
raise from the sweep can escape. -/
def Worker.pollCycle (w : Worker) (fails : String → Bool) (poll : PollResult)
    (now : Int) : Worker × Bool :=
  let w1 : Worker :=
    match poll with
    | PollResult.fail => w
    | PollResult.ok status =>
        (Worker.process_keys fails status now w w.device_metrics).1
  w1.clear_expired_metrics now

/-- The `while self.running` loop of `Worker.loop`, driven by a finite
schedule of iteration inputs `(poll outcome, current time, stop requested
during this iteration?)`. The flag is consulted only at the top of an
iteration; a stop requested during iteration `i` takes effect after that
iteration's cycle completes. An exception escaping a cycle terminates the
loop. Result: (final state, number of cycles executed). -/
def Worker.loopRun (fails : String → Bool) :
    Worker → List (PollResult × Int × Bool) → Worker × Nat
  | w, [] => (w, 0)
  | w, (poll, now, stopReq) :: rest =>
      if w.running then
        match w.pollCycle fails poll now with
        | (w1, true) => (w1, 1)
        | (w1, false) =>
            let w2 := if stopReq then Worker.stop w1 else w1
            let p := Worker.loopRun fails w2 rest
            (p.1, p.2 + 1)
      else (w, 0)

/-- The key of a collector entry, if the entry is an actual handle. -/
def entryKey : Option SmartThingsMetric → Option String
  | none => none
  | some m => some m.payload_key

/-- A fresh worker used for concrete instances. -/
def baseWorker : Worker := Worker.init "tok" "id" "dev" ["switch"] 30 300

/-- The construction-failure oracle never firing: the faithful model of the
source, where `SmartThingsMetric.__init__` never raises
`SmartThingsMetricException`. -/
def noFail : String → Bool := fun _ => false

/-- Modelled from the spec: a construction failure (the spec's "invalid
field key format" raising `SmartThingsMetricException`, which nothing under
`src/` actually raises) for the payload key `"bad"`. -/
def failsBad : String → Bool := fun k => k == "bad"

/-- A status snapshot in which every configured field is absent (`None`). -/
def statusNone : String → Option Int := fun _ => none

/-- A handle for key `"switch"` that has observed the value 5 at time 0,
built through `set` itself. -/
def mSwitch5 : SmartThingsMetric := ((SmartThingsMetric.init "switch" "dev").set (some 5) 0).1

/-- A worker holding one handle that was created but never successfully
updated: its `last_update_time` is still `None`. -/
def wNeverUpdated : Worker :=
  { baseWorker with metrics_collector := [some (SmartThingsMetric.init "switch" "dev")] }

/-- A handle for key `"a"` that has observed the value 5 at time 0. -/
def mA : SmartThingsMetric := ((SmartThingsMetric.init "a" "dev").set (some 5) 0).1

/-- A worker configured to track `["a", "b"]`, already holding the handle
for `"a"`. -/
def wAB : Worker :=
  { baseWorker with device_metrics := ["a", "b"], metrics_collector := [some mA] }

/-- A worker configured to track the single key `"bad"`, empty registry. -/
def wBad : Worker := Worker.init "tok" "id" "dev" ["bad"] 30 300

theorem set_num_eq (m : SmartThingsMetric) (v : Int) (now : Int) (h : m.value = some v) :
    m.set (some v) now = (m, false) := by
  simp [SmartThingsMetric.set, h]

theorem set_num_ne (m : SmartThingsMetric) (v : Int) (now : Int) (h : m.value ≠ some v) :
    m.set (some v) now =
      ({ m with published := some v, value := some v, last_update_time := some now }, false) := by
  simp [SmartThingsMetric.set, h]

theorem set_num_value (m : SmartThingsMetric) (v : Int) (now : Int) :
    (m.set (some v) now).1.value = some v := by
  by_cases h : m.value = some v
  · rw [set_num_eq m v now h]; exact h
  · rw [set_num_ne m v now h]

theorem setAllCount_value (vs : List Int) :
    ∀ (m : SmartThingsMetric) (now : Int), vs ≠ [] →
      (setAllCount m now vs).1.value = vs.getLast? := by
  induction vs with
  | nil => intro m now h; exact absurd rfl h
  | cons v vs ih =>
      intro m now _
      cases vs with
      | nil =>
          simp only [setAllCount, List.getLast?_singleton]
          exact set_num_value m v now
      | cons w ws =>
          simp only [setAllCount, List.getLast?_cons_cons]
          exact ih ((m.set (some v) now).1) now (by simp)

theorem setAllCount_published (vs : List Int) :
    ∀ (m : SmartThingsMetric) (now : Int), m.published = m.value →
      (setAllCount m now vs).1.published = (setAllCount m now vs).1.value := by
  induction vs with
  | nil => intro m now h; exact h
  | cons v vs ih =>
      intro m now h
      simp only [setAllCount]
      apply ih
      by_cases hv : m.value = some v
      · rw [set_num_eq m v now hv]; exact h
      · rw [set_num_ne m v now hv]

theorem setAllCount_count (vs : List Int) :
    ∀ (m : SmartThingsMetric) (now : Int),
      (setAllCount m now vs).2 = changeCount m.value vs := by
  induction vs with
  | nil => intro m now; rfl
  | cons v vs ih =>
      intro m now
      simp only [setAllCount, changeCount]
      have hval : (m.set (some v) now).1.value = some v := set_num_value m v now
      rw [ih ((m.set (some v) now).1) now, hval]

theorem loopRun_stopped (fails : String → Bool) (w : Worker) (h : w.running = false) :
    ∀ ins, Worker.loopRun fails w ins = (w, 0) := by
  intro ins
  cases ins with
  | nil => rfl
  | cons p rest =>
      rcases p with ⟨poll, now, s⟩
      simp [Worker.loopRun, h]

/-- C9: `set(value)` publishes to the gauge before mutating the handle's
internal state, so whenever the publish raises (a differing but absent
value), `value` and `last_update_time` — indeed the whole handle state — are
exactly as they were before the call: `set` is atomic on error. -/
theorem C9_set_error_atomic (m : SmartThingsMetric) (v : Option Int) (now : Int)
    (h : (m.set v now).2 = true) : (m.set v now).1 = m := by
  by_cases hv : m.value = v
  · simp [SmartThingsMetric.set, hv] at h
  · cases v with
    | none => simp [SmartThingsMetric.set, hv]
    | some n => simp [SmartThingsMetric.set, hv] at h

/-- Witness for C9: on a handle currently holding 5, `set(None)` raises and
leaves the handle untouched. -/
theorem C9_witness : (mSwitch5.set none 1).2 = true ∧ (mSwitch5.set none 1).1 = mSwitch5 :=
  ⟨by decide, C9_set_error_atomic mSwitch5 none 1 (by decide)⟩

/-- C4: in a cycle whose device status refresh fails, no metric is touched
by the update phase (the state entering the sweep is exactly the previous
state), and the expiration sweep still runs unconditionally: the cycle is
exactly `clear_expired_metrics` on the unchanged worker. -/
theorem C4_failed_refresh_no_update (w : Worker) (fails : String → Bool) (now : Int) :
    w.pollCycle fails PollResult.fail now = w.clear_expired_metrics now := rfl

/-- C2, recorded against the code at its failing input: a handle whose
`last_update_time` is still `None` makes the expiration sweep raise
(`TypeError` on `current_time - None`) instead of skipping the handle; the
sweep does not complete. The state is returned unchanged only because the
raise aborts the sweep. -/
theorem C2_sweep_raises_on_never_updated :
    (wNeverUpdated.clear_expired_metrics 1000).2 = true ∧
    (wNeverUpdated.clear_expired_metrics 1000).1 = wNeverUpdated := by decide

/-- Counterexample to C1 as stated: with one configured key whose status
value is absent on first observation, the cycle's sweep raises (`TypeError`
on `current_time - None`) and the exception escapes `pollCycle`; the loop,
though still flagged running and given a second iteration, terminates after
one cycle. So an exception from a cycle does propagate out of `Worker.loop`. -/
theorem C1_counterexample :
    (baseWorker.pollCycle noFail (PollResult.ok statusNone) 0).2 = true ∧
    baseWorker.running = true ∧
    (Worker.loopRun noFail baseWorker
        [(PollResult.ok statusNone, 0, false), (PollResult.fail, 30, false)]).2 = 1 := by
  decide

/-- C1 amended: exceptions raised during status processing (the refresh and
the per-key updates — the region inside the `try`) are caught: even when
that region raised, the cycle still proceeds to the expiration sweep on the
state reached so far, and only a raise of the sweep itself (which sits
outside the `try`) can escape the cycle. -/
theorem C1_amended_try_containment (w : Worker) (fails : String → Bool)
    (status : String → Option Int) (now : Int)
    (hraised : (Worker.process_keys fails status now w w.device_metrics).2 = true) :
    w.pollCycle fails (PollResult.ok status) now =
      (Worker.process_keys fails status now w w.device_metrics).1.clear_expired_metrics now :=
  rfl

/-- Witness for the amended C1: a worker whose only key raises during its
update (publishing an absent value); the status-processing exception is
caught and the cycle equals the sweep of the partially-updated state. -/
theorem C1_witness :
    (Worker.process_keys noFail statusNone 1 wAB wAB.device_metrics).2 = true ∧
    wAB.pollCycle noFail (PollResult.ok statusNone) 1 =
      (Worker.process_keys noFail statusNone 1 wAB wAB.device_metrics).1.clear_expired_metrics 1 :=
  ⟨by decide, C1_amended_try_containment wAB noFail statusNone 1 (by decide)⟩

/-- C7: `clear()` hides the published value (absence, not zero) and stamps
`last_update_time` with the clear time, so any sweep that runs within the
expiration threshold of the clear does not select the handle again: the
sweep step leaves the cleared handle unchanged, without clearing and without
raising. -/
theorem C7_clear_idempotent_per_period (m : SmartThingsMetric) (t0 now thr : Int)
    (h : now - t0 ≤ thr) :
    (m.clear t0).published = none ∧
    (m.clear t0).last_update_time = some t0 ∧
    sweepStep thr now (some (m.clear t0)) = (some (m.clear t0), false, false) := by
  refine ⟨rfl, rfl, ?_⟩
  have hle : ¬ (now - t0 > thr) := by omega
  simp [sweepStep, SmartThingsMetric.clear, hle]

/-- Witness for C7: a handle cleared at time 0 is not selected by a sweep at
time 100 under threshold 300. -/
theorem C7_witness :
    ((100 : Int) - 0 ≤ 300) ∧
    ((mSwitch5.clear 0).published = none ∧
     (mSwitch5.clear 0).last_update_time = some 0 ∧
     sweepStep 300 100 (some (mSwitch5.clear 0)) = (some (mSwitch5.clear 0), false, false)) :=
  ⟨by decide, C7_clear_idempotent_per_period mSwitch5 0 100 300 (by decide)⟩

/-- C8: stopping is cooperative. `stop()` only clears the running flag; a
stopped worker never runs another cycle (no Stopped-to-Running transition);
and a stop requested during an iteration does not interrupt it — the
in-flight cycle completes and exactly that one cycle runs, the flag being
consulted only at the top of each iteration. -/
theorem C8_stop_cooperative (w : Worker) (fails : String → Bool) (poll : PollResult)
    (now : Int) (rest : List (PollResult × Int × Bool))
    (hrun : w.running = true) (hok : (w.pollCycle fails poll now).2 = false) :
    Worker.stop w = { w with running := false } ∧
    (∀ ins, Worker.loopRun fails (Worker.stop w) ins = (Worker.stop w, 0)) ∧
    Worker.loopRun fails w ((poll, now, true) :: rest) =
      (Worker.stop (w.pollCycle fails poll now).1, 1) := by
  refine ⟨rfl, loopRun_stopped fails (Worker.stop w) rfl, ?_⟩
  rcases hcyc : w.pollCycle fails poll now with ⟨w1, b⟩
  rw [hcyc] at hok
  simp only at hok
  subst hok
  simp only [Worker.loopRun, hrun, if_true, hcyc]
  rw [loopRun_stopped fails (Worker.stop w1) rfl rest]

/-- Witness for C8: a fresh running worker, stop requested during a failing
poll iteration — the iteration's cycle completes, then the loop exits. -/
theorem C8_witness :
    Worker.loopRun noFail baseWorker [(PollResult.fail, 0, true)] =
      (Worker.stop (baseWorker.pollCycle noFail PollResult.fail 0).1, 1) :=
  (C8_stop_cooperative baseWorker noFail PollResult.fail 0 [] rfl (by decide)).2.2

/-- Counterexample to C3 as stated: on a handle currently holding 5, the
incoming value `None` differs from `currentValue`, yet `set` neither
publishes it nor updates `currentValue`/`lastUpdateTime` — the publish
raises (`float(None)`) and the handle is returned unchanged. So "publishes
and updates iff the value differs" fails for absent values. -/
theorem C3_counterexample :
    (none : Option Int) ≠ mSwitch5.value ∧
    mSwitch5.set none 1 = (mSwitch5, true) := by decide

/-- C3 amended (restricted to numeric, i.e. publishable, values): `set(v)`
publishes `v` and updates `currentValue` and `lastUpdateTime` to now exactly
when `v` differs from `currentValue` (including the first observation), and
does nothing at all when it is equal. Consequently, over any nonempty
sequence of numeric observations on a fresh handle, the published value is
the most recent value that differed from its predecessor (equivalently, the
last value of the sequence), and the number of publish calls is the number
of values differing from their predecessor. -/
theorem C3_set_publish_on_change (m : SmartThingsMetric) (v : Int) (now : Int)
    (k d : String) (vs : List Int) (hvs : vs ≠ []) :
    m.set (some v) now =
      (if m.value = some v then (m, false)
       else ({ m with published := some v, value := some v, last_update_time := some now },
             false)) ∧
    (setAllCount (SmartThingsMetric.init k d) now vs).1.published = vs.getLast? ∧
    (setAllCount (SmartThingsMetric.init k d) now vs).2 = changeCount none vs := by
  refine ⟨?_, ?_, ?_⟩
  · by_cases hv : m.value = some v
    · rw [set_num_eq m v now hv, if_pos hv]
    · rw [set_num_ne m v now hv, if_neg hv]
  · rw [setAllCount_published vs (SmartThingsMetric.init k d) now rfl,
      setAllCount_value vs (SmartThingsMetric.init k d) now hvs]
  · exact setAllCount_count vs (SmartThingsMetric.init k d) now

/-- Witness for the amended C3: a concrete handle and the observation
sequence 3, 3, 4 — two publishes, final published value 4. -/
theorem C3_witness :
    ([3, 3, 4] : List Int) ≠ [] ∧
    (mSwitch5.set (some 7) 1 =
      (if mSwitch5.value = some 7 then (mSwitch5, false)
       else ({ mSwitch5 with published := some 7, value := some 7, last_update_time := some 1 },
             false)) ∧
     (setAllCount (SmartThingsMetric.init "level" "dev") 1 [3, 3, 4]).1.published =
       ([3, 3, 4] : List Int).getLast? ∧
     (setAllCount (SmartThingsMetric.init "level" "dev") 1 [3, 3, 4]).2 =
       changeCount none [3, 3, 4]) :=
  ⟨by decide, C3_set_publish_on_change mSwitch5 7 1 "level" "dev" [3, 3, 4] (by decide)⟩

/-- C5, recorded against the code at its failing input: when construction of
the handle for key `"bad"` fails, resolution returns no handle (the field is
skipped) but the `None` is appended to the collector anyway; the next
resolution of the same key then raises `AttributeError` while scanning the
collector instead of retrying construction, and the expiration sweep over
the poisoned collector raises as well (escaping `Worker.loop`). -/
theorem C5_construction_failure_poisons_registry :
    wBad.get_metric_by_payload_key failsBad "bad" =
      ({ wBad with metrics_collector := [none] }, none, false) ∧
    ({ wBad with metrics_collector := [none] } : Worker).get_metric_by_payload_key
        failsBad "bad" =
      ({ wBad with metrics_collector := [none] }, none, true) ∧
    ({ wBad with metrics_collector := [none] } : Worker).clear_expired_metrics 0 =
      ({ wBad with metrics_collector := [none] }, true) := by decide

/-- C10: the configured keys are processed strictly in their configured
order inside the single protected region, and the first exception aborts all
later keys of that cycle: processing `ks1 ++ k :: ks2`, where `ks1` runs
clean and `k` raises, equals processing `ks1` and then `k` alone — the
handles of the keys in `ks2` are never touched and keep their values and
timestamps. -/
theorem C10_exception_aborts_later_keys (w : Worker) (fails : String → Bool)
    (status : String → Option Int) (now : Int) (ks1 ks2 : List String) (k : String)
    (h1 : (Worker.process_keys fails status now w ks1).2 = false)
    (h2 : ((Worker.process_keys fails status now w ks1).1.process_key fails status now k).2
        = true) :
    Worker.process_keys fails status now w (ks1 ++ k :: ks2) =
      (((Worker.process_keys fails status now w ks1).1.process_key fails status now k).1,
       true) := by
  induction ks1 generalizing w with
  | nil =>
      simp only [Worker.process_keys, List.nil_append] at h1 h2 ⊢
      rcases hpk : w.process_key fails status now k with ⟨w1, b⟩
      rw [hpk] at h2
      simp only at h2
      subst h2
      simp only [Worker.process_keys, hpk]
  | cons a ks1 ih =>
      rcases hpa : w.process_key fails status now a with ⟨wa, ba⟩
      cases ba with
      | true => simp [Worker.process_keys, hpa] at h1
      | false =>
          simp only [Worker.process_keys, hpa] at h1 h2
          simp only [List.cons_append, Worker.process_keys, hpa]
          exact ih wa h1 h2

/-- Witness for C10: worker tracking `["a", "b"]` whose handle for `"a"`
holds 5; the snapshot reports `"a"` as absent, so updating `"a"` raises and
`"b"` is never processed in that cycle. -/
theorem C10_witness :
    (Worker.process_keys noFail statusNone 1 wAB []).2 = false ∧
    ((Worker.process_keys noFail statusNone 1 wAB []).1.process_key noFail statusNone 1
        "a").2 = true ∧
    Worker.process_keys noFail statusNone 1 wAB ([] ++ "a" :: ["b"]) =
      (((Worker.process_keys noFail statusNone 1 wAB []).1.process_key noFail statusNone 1
          "a").1,
       true) :=
  ⟨by decide, by decide,
    C10_exception_aborts_later_keys wAB noFail statusNone 1 [] ["b"] "a"
      (by decide) (by decide)⟩

theorem findMetric_no_raise (l : List (Option SmartThingsMetric)) (key : String)
    (h : l.all Option.isSome = true) : (findMetric l key).2 = false := by
  induction l with
  | nil => rfl
  | cons e rest ih =>
      cases e with
      | none => simp at h
      | some m =>
          simp only [List.all_cons, Bool.and_eq_true] at h
          by_cases hk : m.payload_key = key
          · simp [findMetric, hk]
          · have hrec := ih h.2
            rcases hfm : findMetric rest key with ⟨o, b⟩
            rw [hfm] at hrec
            simp only at hrec
            subst hrec
            cases o with
            | none => simp [findMetric, hk, hfm]
            | some im =>
                rcases im with ⟨i, m'⟩
                simp [findMetric, hk, hfm]

theorem findMetric_found_key (l : List (Option SmartThingsMetric)) (key : String) :
    ∀ i m, findMetric l key = (some (i, m), false) → m.payload_key = key := by
  induction l with
  | nil => intro i m h; simp [findMetric] at h
  | cons e rest ih =>
      intro i m h
      cases e with
      | none => simp [findMetric] at h
      | some m0 =>
          by_cases hk : m0.payload_key = key
          · simp only [findMetric, if_pos hk] at h
            injection h with h1 h2
            injection h1 with h3
            injection h3 with h4 h5
            rw [← h5]; exact hk
          · rcases hfm : findMetric rest key with ⟨o, b⟩
            simp only [findMetric, if_neg hk, hfm] at h
            cases o with
            | none => simp at h
            | some im =>
                rcases im with ⟨i', m'⟩
                injection h with h1 h2
                injection h1 with h3
                injection h3 with h4 h5
                subst h2
                rw [← h5]
                exact ih i' m' hfm

theorem findMetric_absent (l : List (Option SmartThingsMetric)) (key : String) :
    findMetric l key = (none, false) →
      ∀ m : SmartThingsMetric, some m ∈ l → m.payload_key ≠ key := by
  induction l with
  | nil => intro _ m hm; simp at hm
  | cons e rest ih =>
      intro h m hm
      cases e with
      | none => simp [findMetric] at h
      | some m0 =>
          by_cases hk : m0.payload_key = key
          · simp [findMetric, hk] at h
          · rcases hfm : findMetric rest key with ⟨o, b⟩
            simp only [findMetric, if_neg hk, hfm] at h
            cases o with
            | some im => rcases im with ⟨i, m'⟩; simp at h
            | none =>
                have hb : b = false := by
                  injection h with h1 h2
                subst hb
                rcases List.mem_cons.mp hm with hm0 | hmr
                · have hmm : m = m0 := by injection hm0
                  rw [hmm]; exact hk
                · exact ih hfm m hmr

theorem findMetric_append_absent (l : List (Option SmartThingsMetric)) (key : String)
    (e : SmartThingsMetric) (hk : e.payload_key = key)
    (h : findMetric l key = (none, false)) :
    findMetric (l ++ [some e]) key = (some (l.length, e), false) := by
  induction l with
  | nil => simp [findMetric, hk]
  | cons e0 rest ih =>
      cases e0 with
      | none => simp [findMetric] at h
      | some m0 =>
          by_cases hk0 : m0.payload_key = key
          · simp [findMetric, hk0] at h
          · rcases hfm : findMetric rest key with ⟨o, b⟩
            simp only [findMetric, if_neg hk0, hfm] at h
            cases o with
            | some im => rcases im with ⟨i, m'⟩; simp at h
            | none =>
                have hb : b = false := by
                  injection h with h1 h2
                subst hb
                have hrec := ih hfm
                have hrec' : findMetric (List.append rest [some e]) key =
                    (some (rest.length, e), false) := hrec
                simp only [List.cons_append, findMetric, if_neg hk0, hrec, hrec',
                  List.length_cons]

theorem resolve_key_of_found (w : Worker) (fails : String → Bool) (key : String)
    (w2 : Worker) (j : Nat) (m2 : SmartThingsMetric)
    (h : w.get_metric_by_payload_key fails key = (w2, some (j, m2), false)) :
    m2.payload_key = key := by
  rcases hfm : findMetric w.metrics_collector key with ⟨o, b⟩
  cases b with
  | true =>
      simp only [Worker.get_metric_by_payload_key, hfm] at h
      simp at h
  | false =>
      cases o with
      | some im =>
          rcases im with ⟨i, m0⟩
          simp only [Worker.get_metric_by_payload_key, hfm] at h
          have hm : m0 = m2 := by
            simp only [Prod.mk.injEq, Option.some.injEq] at h
            exact h.2.1.2
          rw [← hm]
          exact findMetric_found_key w.metrics_collector key i m0 hfm
      | none =>
          simp only [Worker.get_metric_by_payload_key, hfm] at h
          cases hfv : fails key with
          | true => simp [Worker.create_new_metric, hfv] at h
          | false =>
              simp only [Worker.create_new_metric, hfv, Bool.false_eq_true, if_false,
                Option.map_some'] at h
              have hm : SmartThingsMetric.init key w.device_name = m2 := by
                simp only [Prod.mk.injEq, Option.some.injEq] at h
                exact h.2.1.2
              rw [← hm]
              rfl

/-- C6: resolution is an idempotent lookup-or-create and the Registry keeps
at most one handle per field key. Starting from a registry with no failed
entries and no duplicate keys, resolving `k` (construction succeeding)
returns a handle carrying key `k`; resolving `k` again returns the identical
handle at the identical index without changing the registry; the
no-duplicates invariant is preserved; and resolving a distinct key `k'`
yields a distinct handle. -/
theorem C6_resolve_idempotent (w : Worker) (fails : String → Bool) (k k' : String)
    (hs : w.metrics_collector.all Option.isSome = true)
    (hnd : (w.metrics_collector.filterMap entryKey).Nodup)
    (hf : fails k = false) (hkk : k ≠ k') :
    ∃ w1 i m, w.get_metric_by_payload_key fails k = (w1, some (i, m), false) ∧
      m.payload_key = k ∧
      w1.get_metric_by_payload_key fails k = (w1, some (i, m), false) ∧
      w1.metrics_collector.all Option.isSome = true ∧
      (w1.metrics_collector.filterMap entryKey).Nodup ∧
      (∀ w2 j m2, w1.get_metric_by_payload_key fails k' = (w2, some (j, m2), false) →
        m ≠ m2) := by
  rcases hfm : findMetric w.metrics_collector k with ⟨o, b⟩
  have hb : b = false := by
    have hnr := findMetric_no_raise w.metrics_collector k hs
    rw [hfm] at hnr
    exact hnr
  subst hb
  cases o with
  | some im =>
      rcases im with ⟨i, m0⟩
      have hres : w.get_metric_by_payload_key fails k = (w, some (i, m0), false) := by
        simp only [Worker.get_metric_by_payload_key, hfm]
      have hkey : m0.payload_key = k := findMetric_found_key w.metrics_collector k i m0 hfm
      refine ⟨w, i, m0, hres, hkey, hres, hs, hnd, ?_⟩
      intro w2 j m2 h2 hmm
      have hk2 : m2.payload_key = k' := resolve_key_of_found w fails k' w2 j m2 h2
      rw [hmm, hk2] at hkey
      exact hkk hkey.symm
  | none =>
      have hres : w.get_metric_by_payload_key fails k =
          ({ w with metrics_collector :=
              w.metrics_collector ++ [some (SmartThingsMetric.init k w.device_name)] },
           some (w.metrics_collector.length, SmartThingsMetric.init k w.device_name),
           false) := by
        simp [Worker.get_metric_by_payload_key, hfm, Worker.create_new_metric, hf]
      refine ⟨_, _, _, hres, rfl, ?_, ?_, ?_, ?_⟩
      · have hfm2 : findMetric
            (w.metrics_collector ++ [some (SmartThingsMetric.init k w.device_name)]) k =
            (some (w.metrics_collector.length, SmartThingsMetric.init k w.device_name),
             false) :=
          findMetric_append_absent w.metrics_collector k
            (SmartThingsMetric.init k w.device_name) rfl hfm
        simp only [Worker.get_metric_by_payload_key, hfm2]
      · simp [List.all_append, hs]
      · have hknotin : k ∉ w.metrics_collector.filterMap entryKey := by
          intro hmem
          rcases List.mem_filterMap.mp hmem with ⟨a, ha, hae⟩
          cases a with
          | none => simp [entryKey] at hae
          | some m' =>
              have hpk : m'.payload_key = k := by
                simpa [entryKey] using hae
              exact findMetric_absent w.metrics_collector k hfm m' ha hpk
        rw [List.filterMap_append]
        have hsingle : List.filterMap entryKey [some (SmartThingsMetric.init k w.device_name)]
            = [k] := rfl
        rw [hsingle]
        exact List.Nodup.append hnd (List.nodup_singleton k)
          (List.disjoint_singleton.mpr hknotin)
      · intro w2 j m2 h2 hmm
        have hk2 : m2.payload_key = k' := by
          exact resolve_key_of_found _ fails k' w2 j m2 h2
        rw [← hmm] at hk2
        exact hkk hk2

/-- Witness for C6: the fresh worker, resolving `"a"` then `"b"`. -/
theorem C6_witness :
    ∃ w1 i m, baseWorker.get_metric_by_payload_key noFail "a" = (w1, some (i, m), false) ∧
      m.payload_key = "a" ∧
      w1.get_metric_by_payload_key noFail "a" = (w1, some (i, m), false) ∧
      w1.metrics_collector.all Option.isSome = true ∧
      (w1.metrics_collector.filterMap entryKey).Nodup ∧
      (∀ w2 j m2, w1.get_metric_by_payload_key noFail "b" = (w2, some (j, m2), false) →
        m ≠ m2) :=
  C6_resolve_idempotent baseWorker noFail "a" "b" (by decide) (by decide) rfl (by decide)

end SmartThings
